import Mathlib

/-!
Verification of the censudex-orders-service order lifecycle subsystem.

The service exposes the same six operations over two transports: an HTTP
controller (`src/controllers/ordersController.js`) and a gRPC service
(`src/gRPC/orderGrpcService.js`).  Both are embedded here as pure
functions over an explicit store of orders.  Monetary values are
rationals, timestamps are integers (epoch milliseconds), and the
database-enum status values are the literal Spanish strings used by the
code: "pendiente" (pending), "en procesamiento" (processing),
"enviado" (shipped), "entregado" (delivered), "cancelado" (cancelled).

External collaborators are parameters: the random alphanumeric string
produced by `faker.string.alphanumeric(10)`, the UUID produced by
`crypto.randomUUID()`, the date parser behind `new Date(...)`, and the
freshly generated order id / creation timestamp supplied by the
database layer.
-/

namespace Censudex

/-- A line item of an order (`src/models/orderItem.js`):
`productId`, `quantity`, unit `price` (snapshot at order time). -/
structure OrderItem where
  productId : String
  quantity : Nat
  price : ℚ
deriving DecidableEq, Repr

/-- An order row (`src/models/order.js`) together with its items
(the `include` association used by every handler). -/
structure Order where
  id : String
  clientId : String
  clientName : String
  totalAmount : ℚ
  status : String
  trackingNumber : Option String
  shippingAddress : Option String
  createdAt : ℤ
  items : List OrderItem
deriving DecidableEq, Repr

/-- The persisted table of orders. -/
abbrev Store := List Order

/-- Errors surfaced to callers.  HTTP 400 / gRPC INVALID_ARGUMENT is
`validationError`; 404 / NOT_FOUND is `notFound`; 403 /
PERMISSION_DENIED is `forbidden`; 500 / INTERNAL is `internalError`. -/
inductive ApiError where
  | validationError
  | notFound
  | forbidden
  | internalError
deriving DecidableEq, Repr

/-- JavaScript truthiness of an optional string: `undefined`/`null`
and the empty string are falsy, every other string is truthy. -/
def truthy : Option String → Bool
  | none => false
  | some s => !s.data.isEmpty

/-- Embedding of JavaScript `String.prototype.trim()`: strip leading
and trailing whitespace. -/
def jsTrim (s : String) : String :=
  ⟨((s.data.dropWhile Char.isWhitespace).reverse.dropWhile Char.isWhitespace).reverse⟩

/-- JavaScript `a || b` on optional strings: `b` when `a` is falsy. -/
def jsOrStr (a b : Option String) : Option String :=
  if truthy a then a else b

/-- `Order.findByPk(id)`. -/
def findByPk (st : Store) (id : String) : Option Order :=
  st.find? (fun o => o.id == id)

/-- `Order.findOne({ where: { trackingNumber } })`. -/
def findByTracking (st : Store) (t : String) : Option Order :=
  st.find? (fun o => o.trackingNumber == some t)

/-- `(await Order.findByPk(idOrTracking)) || (await Order.findOne({ where: { trackingNumber: idOrTracking } }))`. -/
def resolveOrder (st : Store) (idOrTracking : String) : Option Order :=
  match findByPk st idOrTracking with
  | some o => some o
  | none => findByTracking st idOrTracking

/-- `order.save()`: replace the row with the same primary key. -/
def saveOrder (st : Store) (o : Order) : Store :=
  st.map (fun x => if x.id == o.id then o else x)

/-- `items.reduce((acc, item) => acc + item.price * item.quantity, 0)` —
the total computed by both `CreateOrder` handlers. -/
def computeTotal (items : List OrderItem) : ℚ :=
  items.foldl (fun acc i => acc + i.price * (i.quantity : ℚ)) 0

/-- Embedding of JavaScript `String.prototype.toUpperCase()` on the
ASCII fragment the service feeds it. -/
def jsToUpperCase (s : String) : String :=
  ⟨s.data.map Char.toUpper⟩

/-- JavaScript `s.slice(0, 8)`: the first eight characters. -/
def jsSlice08 (s : String) : String :=
  ⟨s.data.take 8⟩

/-- `` `TRK-${faker.string.alphanumeric(10).toUpperCase()}` `` — the
tracking number generated by both `CreateOrder` handlers, as a function
of the library-produced alphanumeric string. -/
def mkCreateTracking (alnum : String) : String :=
  "TRK-" ++ jsToUpperCase alnum

/-- `` `TRK-${crypto.randomUUID().slice(0, 8).toUpperCase()}` `` — the
fallback tracking number generated by the HTTP `updateOrderStatus`
handler, as a function of the library-produced UUID string. -/
def mkFallbackTracking (uuid : String) : String :=
  "TRK-" ++ jsToUpperCase (jsSlice08 uuid)

/-! ## HTTP controller handlers (`src/controllers/ordersController.js`) -/

/-- Body of `POST /orders`.  Absent fields are `none`. -/
structure CreateReq where
  userId : Option String
  clientName : Option String
  items : Option (List OrderItem)
  shippingAddress : Option String

/-- HTTP `createOrder`: validates `userId`, `clientName` and non-empty
`items`; computes the total; generates `TRK-` + uppercased
alphanumeric(10); persists the order with status "pendiente".
The pair is (response, store after the call). -/
def httpCreateOrder (st : Store) (req : CreateReq) (alnum newId : String) (now : ℤ) :
    Except ApiError Order × Store :=
  if !truthy req.userId || !truthy req.clientName ||
      req.items.isNone || (req.items.getD []).isEmpty then
    (.error .validationError, st)
  else
    let items := req.items.getD []
    let order : Order :=
      { id := newId
        clientId := req.userId.getD ""
        clientName := req.clientName.getD ""
        totalAmount := computeTotal items
        status := "pendiente"
        trackingNumber := some (mkCreateTracking alnum)
        shippingAddress := req.shippingAddress
        createdAt := now
        items := items }
    (.ok order, st ++ [order])

/-- HTTP `updateOrderStatus` (`PATCH /orders/:id/status`): loads by id,
sets the status unconditionally; when the new status is "enviado" the
tracking number becomes `trackingNumber || order.trackingNumber ||
generated`; when it is "cancelado" the tracking number is cleared. -/
def httpUpdateOrderStatus (st : Store) (id status : String)
    (reqTracking : Option String) (uuid : String) :
    Except ApiError Order × Store :=
  match findByPk st id with
  | none => (.error .notFound, st)
  | some order =>
    let o1 := { order with status := status }
    let newTrk := jsOrStr reqTracking (jsOrStr o1.trackingNumber (some (mkFallbackTracking uuid)))
    let o2 :=
      if status == "enviado" then { o1 with trackingNumber := newTrk }
      else o1
    let o3 := if status == "cancelado" then { o2 with trackingNumber := none } else o2
    (.ok o3, saveOrder st o3)

/-- HTTP `cancelOrder` (`PATCH /orders/:idOrTracking/cancel`): requires a
role; resolves by id then by tracking number; a user may cancel only a
"pendiente" or "en procesamiento" order (403 otherwise); an admin must
supply a non-blank reason (400 otherwise); any other role is a 400.
Neither success branch touches `trackingNumber`. -/
def httpCancelOrder (st : Store) (idOrTracking : String)
    (role reason : Option String) : Except ApiError Order × Store :=
  if !truthy role then (.error .validationError, st)
  else
    match resolveOrder st idOrTracking with
    | none => (.error .notFound, st)
    | some order =>
      if role == some "user" then
        if order.status != "pendiente" && order.status != "en procesamiento" then
          (.error .forbidden, st)
        else
          let o := { order with status := "cancelado" }
          (.ok o, saveOrder st o)
      else if role == some "admin" then
        if !truthy reason || jsTrim (reason.getD "") == "" then
          (.error .validationError, st)
        else
          let o := { order with status := "cancelado" }
          (.ok o, saveOrder st o)
      else (.error .validationError, st)

/-- The orders of one client, in store order
(`Order.findAll({ where: { clientId }, include: items })`). -/
def clientOrders (st : Store) (clientId : String) : List Order :=
  st.filter (fun o => o.clientId == clientId)

/-- "createdAt descending": `a` may precede `b` when `b` is not newer. -/
def createdDesc (a b : Order) : Prop :=
  b.createdAt ≤ a.createdAt

instance : DecidableRel createdDesc := fun a b =>
  inferInstanceAs (Decidable (b.createdAt ≤ a.createdAt))

instance : IsTotal Order createdDesc :=
  ⟨fun a b => le_total b.createdAt a.createdAt⟩

instance : IsTrans Order createdDesc :=
  ⟨fun _ _ _ h1 h2 => le_trans h2 h1⟩

/-- HTTP `getOrderHistory` (`GET /orders/history/:clientId`): the
client's orders with items, `order: [['createdAt', 'DESC']]`. -/
def httpGetOrderHistory (st : Store) (clientId : String) : List Order :=
  List.insertionSort createdDesc (clientOrders st clientId)

/-- Query of `GET /orders` and request of gRPC `GetAllOrders`. -/
structure AllOrdersReq where
  id : Option String
  userId : Option String
  startDate : Option String
  endDate : Option String

/-- HTTP `getAllOrders` (`GET /orders`): when both dates are supplied
the handler evaluates `{ [Op.between]: ... }`, but `Op` is never
imported in `ordersController.js`, so the thrown ReferenceError is
caught and mapped to the generic 500 response; a `userId` filter names
a `userId` column the Order model does not define, so the store rejects
the query (500 as well).  Only the `id` filter works. -/
def httpGetAllOrders (st : Store) (req : AllOrdersReq) :
    Except ApiError (List Order) :=
  if truthy req.startDate && truthy req.endDate then
    .error .internalError
  else if truthy req.userId then
    .error .internalError
  else
    .ok (st.filter (fun o => if truthy req.id then o.id == req.id.getD "" else true))

/-! ## gRPC handlers (`src/gRPC/orderGrpcService.js`) -/

/-- gRPC `CreateOrder`: no validation at all — the total is computed
(0 for an empty items list), a tracking number is generated and the
order is persisted with status "pendiente". -/
def grpcCreateOrder (st : Store) (clientId clientName : String)
    (shippingAddress : Option String) (items : List OrderItem)
    (alnum newId : String) (now : ℤ) : Except ApiError Order × Store :=
  let order : Order :=
    { id := newId
      clientId := clientId
      clientName := clientName
      totalAmount := computeTotal items
      status := "pendiente"
      trackingNumber := some (mkCreateTracking alnum)
      shippingAddress := shippingAddress
      createdAt := now
      items := items }
  (.ok order, st ++ [order])

/-- gRPC `UpdateOrderStatus`: loads by id, sets the status, saves.
It never reads, generates or clears a tracking number. -/
def grpcUpdateOrderStatus (st : Store) (id status : String) :
    Except ApiError Unit × Store :=
  match findByPk st id with
  | none => (.error .notFound, st)
  | some order =>
    let o1 := { order with status := status }
    (.ok (), saveOrder st o1)

/-- gRPC `CancelOrder`: requires a role and resolves the order, then
cancels unconditionally — the user status policy and the admin reason
requirement of the HTTP controller are absent; `role`/`reason` only
select the notification text. -/
def grpcCancelOrder (st : Store) (idOrTracking : String)
    (role _reason : Option String) : Except ApiError Unit × Store :=
  if !truthy role then (.error .validationError, st)
  else
    match resolveOrder st idOrTracking with
    | none => (.error .notFound, st)
    | some order =>
      let o := { order with status := "cancelado" }
      (.ok (), saveOrder st o)

/-- gRPC `GetOrderHistory`: `findAll({ where: { clientId }, include:
items })` with no `order` clause — the rows come back in store order. -/
def grpcGetOrderHistory (st : Store) (clientId : String) : List Order :=
  clientOrders st clientId

/-- The row predicate assembled by gRPC `GetAllOrders`: `id` and
`clientId` equality filters when supplied, plus an inclusive
`Op.between` on `createdAt` when a parsed date range is active. -/
def matchesFilters (req : AllOrdersReq) (range : Option (ℤ × ℤ)) (o : Order) : Bool :=
  (if truthy req.id then o.id == req.id.getD "" else true) &&
    (if truthy req.userId then o.clientId == req.userId.getD "" else true) &&
    (match range with
     | some (s, e) => decide (s ≤ o.createdAt) && decide (o.createdAt ≤ e)
     | none => true)

/-- gRPC `GetAllOrders`: when both date strings are supplied they are
parsed; an invalid date is INVALID_ARGUMENT; otherwise the filtered
rows are returned ordered by `createdAt` descending.  `parseDate`
stands for `new Date(...)` (`none` = Invalid Date). -/
def grpcGetAllOrders (parseDate : String → Option ℤ) (st : Store)
    (req : AllOrdersReq) : Except ApiError (List Order) :=
  if truthy req.startDate && truthy req.endDate then
    match parseDate (req.startDate.getD ""), parseDate (req.endDate.getD "") with
    | some s, some e =>
      .ok (List.insertionSort createdDesc (st.filter (matchesFilters req (some (s, e)))))
    | _, _ => .error .validationError
  else
    .ok (List.insertionSort createdDesc (st.filter (matchesFilters req none)))

/-! ## Event publisher (`src/config/rabbitmq.js`) -/

/-- The MassTransit-style envelope built by `publishToQueue`. -/
structure Envelope where
  messageId : String
  messageType : List String
  orderIdField : Option String
  trackingNumberField : Option String
  userIdField : Option String
  itemsField : List OrderItem
  createdAtField : String
deriving DecidableEq, Repr

/-- The domain payload handed to `publishToQueue`. -/
structure QueueMessage where
  orderId : Option String
  trackingNumber : Option String
  userId : Option String
  items : Option (List OrderItem)

/-- `publishToQueue(routingKey, message)` with an active channel:
asserts the durable topic exchange "order_events" and publishes a
persistent envelope under the given routing key.  The result is
(exchange, routingKey, envelope, persistent flag); `messageId` and
`nowIso` stand for `crypto.randomUUID()` and `new Date().toISOString()`. -/
def publishToQueue (messageId nowIso routingKey : String) (msg : QueueMessage) :
    String × String × Envelope × Bool :=
  ("order_events", routingKey,
    { messageId := messageId
      messageType := ["urn:message:InventoryService.Src.Messages:OrderCreatedMessage"]
      orderIdField := msg.orderId
      trackingNumberField := jsOrStr msg.trackingNumber none
      userIdField := msg.userId
      itemsField := msg.items.getD []
      createdAtField := nowIso },
    true)

/-- A character allowed after "TRK-" by the documented format:
an uppercase letter or a digit. -/
def isUpperAlnum (c : Char) : Bool :=
  c.isUpper || c.isDigit

/-- The documented tracking-number format: "TRK-" followed by exactly
ten uppercase alphanumeric characters. -/
def isTrackingFormat (s : String) : Bool :=
  s.data.take 4 == ['T', 'R', 'K', '-'] &&
    (s.data.drop 4).length == 10 &&
    (s.data.drop 4).all isUpperAlnum

/-! ## Concrete fixtures used by witnesses and counterexamples -/

/-- The items of the spec's create scenario:
`[{p1, qty 2, price 10.00}, {p2, qty 1, price 5.50}]`. -/
def exItems : List OrderItem :=
  [⟨"p1", 2, 10⟩, ⟨"p2", 1, 11 / 2⟩]

/-- A pending order holding a tracking number. -/
def exOrderPend : Order :=
  { id := "o-pend", clientId := "c1", clientName := "Ana"
    totalAmount := 10, status := "pendiente"
    trackingNumber := some "TRK-AAAA000000", shippingAddress := none
    createdAt := 100, items := [] }

/-- A shipped order (terminal for user cancellation per the spec). -/
def exOrderShip : Order :=
  { id := "o-ship", clientId := "c1", clientName := "Ana"
    totalAmount := 20, status := "enviado"
    trackingNumber := some "TRK-BBBB111111", shippingAddress := none
    createdAt := 200, items := [] }

/-- A processing order without a tracking number. -/
def exOrderNoTrk : Order :=
  { id := "o-notrk", clientId := "c2", clientName := "Luis"
    totalAmount := 5, status := "en procesamiento"
    trackingNumber := none, shippingAddress := none
    createdAt := 300, items := [] }

/-- Three orders of one client created at distinct increasing times,
stored oldest first. -/
def exHistSt : Store :=
  [ { id := "h1", clientId := "cX", clientName := "Eva", totalAmount := 1
      status := "pendiente", trackingNumber := none, shippingAddress := none
      createdAt := 10, items := [] }
  , { id := "h2", clientId := "cX", clientName := "Eva", totalAmount := 2
      status := "pendiente", trackingNumber := none, shippingAddress := none
      createdAt := 20, items := [] }
  , { id := "h3", clientId := "cX", clientName := "Eva", totalAmount := 3
      status := "pendiente", trackingNumber := none, shippingAddress := none
      createdAt := 30, items := [] } ]

/-! ## Helper lemmas -/

theorem foldl_add_map (f : OrderItem → ℚ) (l : List OrderItem) (a : ℚ) :
    l.foldl (fun acc i => acc + f i) a = a + (l.map f).sum := by
  induction l generalizing a with
  | nil => simp
  | cons x xs ih => simp [ih, add_assoc]

/-- The reduce in both `CreateOrder` handlers computes the sum of
price times quantity. -/
theorem computeTotal_eq_sum (items : List OrderItem) :
    computeTotal items = (items.map (fun i => i.price * (i.quantity : ℚ))).sum := by
  simpa using foldl_add_map (fun i => i.price * (i.quantity : ℚ)) items 0

/-- Reduction of the HTTP cancel handler at role "user". -/
theorem httpCancelOrder_user_eq (st : Store) (idt : String) (reason : Option String) :
    httpCancelOrder st idt (some "user") reason =
      match resolveOrder st idt with
      | none => (.error .notFound, st)
      | some order =>
        if order.status != "pendiente" && order.status != "en procesamiento" then
          (.error .forbidden, st)
        else
          (.ok { order with status := "cancelado" },
            saveOrder st { order with status := "cancelado" }) :=
  rfl

/-- Reduction of the HTTP cancel handler at role "admin". -/
theorem httpCancelOrder_admin_eq (st : Store) (idt : String) (reason : Option String) :
    httpCancelOrder st idt (some "admin") reason =
      match resolveOrder st idt with
      | none => (.error .notFound, st)
      | some order =>
        if !truthy reason || jsTrim (reason.getD "") == "" then
          (.error .validationError, st)
        else
          (.ok { order with status := "cancelado" },
            saveOrder st { order with status := "cancelado" }) :=
  rfl

/-! ## Claims -/

/-- C10: `publishToQueue` stamps every envelope with the single constant
type tag `urn:message:InventoryService.Src.Messages:OrderCreatedMessage`,
whatever the routing key; two publishes differing only in the routing
key produce identical envelopes, so consumers can distinguish event
kinds only by the routing key. -/
theorem publish_messageType_constant (mid nowIso rk : String) (msg : QueueMessage) :
    (publishToQueue mid nowIso rk msg).2.2.1.messageType =
      ["urn:message:InventoryService.Src.Messages:OrderCreatedMessage"] ∧
    (∀ rk2 : String,
      (publishToQueue mid nowIso rk msg).2.2.1 = (publishToQueue mid nowIso rk2 msg).2.2.1) :=
  ⟨rfl, fun _ => rfl⟩

/-- C4: every valid `CreateOrder` (HTTP after its validation, gRPC
unconditionally) persists an order whose `totalAmount` is the sum of
price times quantity over the items and whose initial status is
"pendiente", with a tracking number assigned at creation. -/
theorem createOrder_total_and_status (st : Store) (req : CreateReq)
    (items : List OrderItem) (alnum newId : String) (now : ℤ)
    (hu : truthy req.userId = true) (hc : truthy req.clientName = true)
    (hi : req.items = some items) (hne : items ≠ []) :
    (∃ o : Order,
        httpCreateOrder st req alnum newId now = (.ok o, st ++ [o]) ∧
        o.totalAmount = (items.map (fun i => i.price * (i.quantity : ℚ))).sum ∧
        o.status = "pendiente" ∧ o.trackingNumber = some (mkCreateTracking alnum)) ∧
    (∀ cid cn sa, ∃ o : Order,
        grpcCreateOrder st cid cn sa items alnum newId now = (.ok o, st ++ [o]) ∧
        o.totalAmount = (items.map (fun i => i.price * (i.quantity : ℚ))).sum ∧
        o.status = "pendiente") := by
  constructor
  · refine ⟨⟨newId, req.userId.getD "", req.clientName.getD "", computeTotal items,
      "pendiente", some (mkCreateTracking alnum), req.shippingAddress, now, items⟩,
      ?_, computeTotal_eq_sum items, rfl, rfl⟩
    simp only [httpCreateOrder, hu, hc, hi]
    simp [List.isEmpty_iff, hne]
  · intro cid cn sa
    exact ⟨_, rfl, computeTotal_eq_sum items, rfl⟩

/-- C4 witness: the spec scenario — items
`[{p1, qty 2, price 10.00}, {p2, qty 1, price 5.50}]` yield
`totalAmount = 25.50` and status "pendiente". -/
theorem createOrder_total_and_status_instance :
    ∃ o : Order,
      httpCreateOrder [] ⟨some "client-1", some "Ana", some exItems, none⟩
          "ab3xyz9k2q" "order-1" 1000 = (.ok o, [] ++ [o]) ∧
      o.totalAmount = 25.5 ∧ o.status = "pendiente" := by
  obtain ⟨o, h1, h2, h3, -⟩ :=
    (createOrder_total_and_status [] ⟨some "client-1", some "Ana", some exItems, none⟩
      exItems "ab3xyz9k2q" "order-1" 1000 rfl rfl rfl (by decide)).1
  refine ⟨o, h1, ?_, h3⟩
  rw [h2]
  norm_num [exItems]

/-- C1 (amended): on the HTTP transport `cancelOrder(role=user)`
succeeds (setting status "cancelado") iff the current status is
"pendiente" or "en procesamiento", fails with 403 leaving the store
untouched otherwise; the gRPC `CancelOrder` enforces no such policy and
cancels from any status. -/
theorem cancelOrder_user_policy (st : Store) (idt : String) (reason : Option String)
    (order : Order) (hres : resolveOrder st idt = some order) :
    ((order.status = "pendiente" ∨ order.status = "en procesamiento") →
      httpCancelOrder st idt (some "user") reason =
        (.ok { order with status := "cancelado" },
          saveOrder st { order with status := "cancelado" })) ∧
    (order.status ≠ "pendiente" → order.status ≠ "en procesamiento" →
      httpCancelOrder st idt (some "user") reason = (.error .forbidden, st)) ∧
    grpcCancelOrder st idt (some "user") reason =
      (.ok (), saveOrder st { order with status := "cancelado" }) := by
  have hrole : truthy (some "user") = true := rfl
  refine ⟨?_, ?_, ?_⟩
  · intro h
    have hcond : (order.status != "pendiente" && order.status != "en procesamiento") = false := by
      rcases h with h | h <;> simp [h]
    rw [httpCancelOrder_user_eq, hres]
    simp [hcond]
  · intro h1 h2
    have hcond : (order.status != "pendiente" && order.status != "en procesamiento") = true := by
      simp [bne_iff_ne, h1, h2]
    rw [httpCancelOrder_user_eq, hres]
    simp [hcond]
  · simp [grpcCancelOrder, hres, hrole]

/-- C1 witness: a user cancels a pending order over HTTP; the same user
is rejected with 403 on a shipped order. -/
theorem cancelOrder_user_policy_instance :
    httpCancelOrder [exOrderPend] "o-pend" (some "user") none =
      (.ok { exOrderPend with status := "cancelado" },
        saveOrder [exOrderPend] { exOrderPend with status := "cancelado" }) ∧
    httpCancelOrder [exOrderShip] "o-ship" (some "user") none =
      (.error .forbidden, [exOrderShip]) := by
  constructor
  · exact (cancelOrder_user_policy [exOrderPend] "o-pend" none exOrderPend rfl).1 (Or.inl rfl)
  · exact (cancelOrder_user_policy [exOrderShip] "o-ship" none exOrderShip rfl).2.1
      (by decide) (by decide)

/-- C1 counterexample: over gRPC a user cancels an order whose status is
"enviado" (shipped) — the claim requires this call to fail with
Forbidden and leave the status unchanged. -/
theorem cancelOrder_user_policy_cex :
    exOrderShip.status = "enviado" ∧
    grpcCancelOrder [exOrderShip] "o-ship" (some "user") none =
      (.ok (), [{ exOrderShip with status := "cancelado" }]) :=
  ⟨rfl, rfl⟩

/-- C2 (amended): on the HTTP transport `cancelOrder(role=admin)` with a
missing or all-whitespace reason fails with 400 leaving the store
untouched, and only a non-blank reason cancels the order; the gRPC
`CancelOrder` cancels regardless of the reason. -/
theorem cancelOrder_admin_reason (st : Store) (idt : String) (reason : Option String)
    (order : Order) (hres : resolveOrder st idt = some order) :
    ((reason = none ∨ jsTrim (reason.getD "") = "") →
      httpCancelOrder st idt (some "admin") reason = (.error .validationError, st)) ∧
    (∀ s, reason = some s → jsTrim s ≠ "" →
      httpCancelOrder st idt (some "admin") reason =
        (.ok { order with status := "cancelado" },
          saveOrder st { order with status := "cancelado" })) ∧
    grpcCancelOrder st idt (some "admin") reason =
      (.ok (), saveOrder st { order with status := "cancelado" }) := by
  have hrole : truthy (some "admin") = true := rfl
  refine ⟨?_, ?_, ?_⟩
  · intro h
    have hcond : (!truthy reason || jsTrim (reason.getD "") == "") = true := by
      rcases h with h | h
      · subst h; rfl
      · simp [h]
    rw [httpCancelOrder_admin_eq, hres]
    simp [hcond]
  · intro s hs htrim
    subst hs
    obtain ⟨l⟩ := s
    match l with
    | [] => exact absurd rfl htrim
    | c :: cs =>
      have h1 : truthy (some ⟨c :: cs⟩) = true := rfl
      have h2 : (jsTrim ((some (⟨c :: cs⟩ : String)).getD "") == "") = false := by
        cases hb : jsTrim ((some (⟨c :: cs⟩ : String)).getD "") == ""
        · rfl
        · exact absurd (eq_of_beq hb) htrim
      rw [httpCancelOrder_admin_eq, hres]
      simp [h1, h2, htrim]
  · simp [grpcCancelOrder, hres, hrole]

/-- C2 witness: over HTTP a blank reason is rejected with 400 and a real
reason cancels the pending order. -/
theorem cancelOrder_admin_reason_instance :
    httpCancelOrder [exOrderPend] "o-pend" (some "admin") (some "  ") =
      (.error .validationError, [exOrderPend]) ∧
    httpCancelOrder [exOrderPend] "o-pend" (some "admin") (some "fraud") =
      (.ok { exOrderPend with status := "cancelado" },
        saveOrder [exOrderPend] { exOrderPend with status := "cancelado" }) := by
  constructor
  · exact (cancelOrder_admin_reason [exOrderPend] "o-pend" (some "  ") exOrderPend rfl).1
      (Or.inr (by decide))
  · exact (cancelOrder_admin_reason [exOrderPend] "o-pend" (some "fraud") exOrderPend rfl).2.1
      "fraud" rfl (by decide)

/-- C2 counterexample: over gRPC `CancelOrder(role=admin)` with no
reason at all still cancels the order — the claim requires a
ValidationError and an unchanged status. -/
theorem cancelOrder_admin_reason_cex :
    grpcCancelOrder [exOrderPend] "o-pend" (some "admin") none =
      (.ok (), [{ exOrderPend with status := "cancelado" }]) :=
  rfl

/-- C3 (amended): on the HTTP transport `createOrder` with a missing or
empty `userId`/`clientName`/`items` fails with 400 and persists
nothing; the gRPC `CreateOrder` performs no such validation and
persists an order even for an empty items list. -/
theorem createOrder_validation (st : Store) (req : CreateReq) (alnum newId : String)
    (now : ℤ)
    (h : truthy req.userId = false ∨ truthy req.clientName = false ∨
      req.items = none ∨ req.items = some []) :
    httpCreateOrder st req alnum newId now = (.error .validationError, st) ∧
    (∀ cid cn sa, ∃ o : Order,
      grpcCreateOrder st cid cn sa [] alnum newId now = (.ok o, st ++ [o]) ∧
      o.totalAmount = 0 ∧ o.status = "pendiente") := by
  constructor
  · rcases h with h | h | h | h <;> simp [httpCreateOrder, h]
  · intro cid cn sa
    exact ⟨_, rfl, rfl, rfl⟩

/-- C3 witness: an HTTP create with an empty items list is rejected with
400 and the (empty) store is unchanged. -/
theorem createOrder_validation_instance :
    httpCreateOrder [] ⟨some "client-1", some "Ana", some [], none⟩
        "ab3xyz9k2q" "order-1" 1000 = (.error .validationError, []) :=
  (createOrder_validation [] ⟨some "client-1", some "Ana", some [], none⟩
    "ab3xyz9k2q" "order-1" 1000 (Or.inr (Or.inr (Or.inr rfl)))).1

/-- C3 counterexample: over gRPC a CreateOrder with empty items and an
empty client name persists an order with `totalAmount` 0 — the claim
requires a ValidationError with nothing persisted. -/
theorem createOrder_validation_cex :
    ∃ o : Order, grpcCreateOrder [] "c9" "" none [] "abc123defg" "o-empty" 5 =
      (.ok o, [o]) ∧ o.totalAmount = 0 ∧ o.status = "pendiente" :=
  ⟨_, rfl, rfl, rfl⟩

/-- The character pool of `faker.string.alphanumeric`. -/
def fakerAlphanumChars : List Char :=
  "ABCDEFGHIJKLMNOPQRSTUVWXYZabcdefghijklmnopqrstuvwxyz0123456789".data

theorem fakerAlphanum_toUpper :
    fakerAlphanumChars.all (fun c => isUpperAlnum c.toUpper) = true := by
  decide

theorem map_toUpper_all (l : List Char) (h : ∀ c ∈ l, c ∈ fakerAlphanumChars) :
    (l.map Char.toUpper).all isUpperAlnum = true := by
  induction l with
  | nil => rfl
  | cons x xs ih =>
    simp only [List.map_cons, List.all_cons, Bool.and_eq_true]
    refine ⟨List.all_eq_true.mp fakerAlphanum_toUpper x (h x (by simp)), ?_⟩
    exact ih (fun c hc => h c (by simp [hc]))

theorem take4_cons (a b c d : Char) (l : List Char) :
    (a :: b :: c :: d :: l).take 4 = [a, b, c, d] := rfl

theorem drop4_cons (a b c d : Char) (l : List Char) :
    (a :: b :: c :: d :: l).drop 4 = l := rfl

/-- C5 (corrected): the creation-time tracking number is "TRK-" plus
ten uppercase alphanumeric characters, but the fallback generated at
`updateOrderStatus("enviado")` keeps only the first eight characters of
a UUID, so it never matches the documented 10-character format. -/
theorem tracking_number_format (alnum uuid : String)
    (hlen : alnum.length = 10)
    (hchars : ∀ c ∈ alnum.data, c ∈ fakerAlphanumChars) :
    isTrackingFormat (mkCreateTracking alnum) = true ∧
    ((mkFallbackTracking uuid).data.drop 4).length ≤ 8 ∧
    isTrackingFormat (mkFallbackTracking uuid) = false := by
  have hdataC : (mkCreateTracking alnum).data =
      'T' :: 'R' :: 'K' :: '-' :: alnum.data.map Char.toUpper := rfl
  have hdataF : (mkFallbackTracking uuid).data =
      'T' :: 'R' :: 'K' :: '-' :: (uuid.data.take 8).map Char.toUpper := rfl
  have hdlen : alnum.data.length = 10 := hlen
  refine ⟨?_, ?_, ?_⟩
  · simp [isTrackingFormat, hdataC, take4_cons, drop4_cons, List.length_map, hdlen,
      map_toUpper_all alnum.data hchars]
  · simp [hdataF, drop4_cons, List.length_map, List.length_take]
  · have hB : ((((uuid.data.take 8).map Char.toUpper).length : Nat) == 10) = false := by
      simp only [List.length_map, List.length_take, beq_eq_false_iff_ne, ne_eq]
      omega
    simp only [isTrackingFormat, hdataF, take4_cons, drop4_cons]
    rw [hB]
    simp

/-- C5 witness: a concrete faker string yields a well-formed creation
tracking number, while the fallback built from a concrete UUID is
rejected by the format check. -/
theorem tracking_number_format_instance :
    isTrackingFormat (mkCreateTracking "ab3XYZ9k2q") = true ∧
    ((mkFallbackTracking "1b9d6bcd-bbbd-4b1d-9b7d-ab8dfbbd4bed").data.drop 4).length ≤ 8 ∧
    isTrackingFormat (mkFallbackTracking "1b9d6bcd-bbbd-4b1d-9b7d-ab8dfbbd4bed") = false :=
  tracking_number_format "ab3XYZ9k2q" "1b9d6bcd-bbbd-4b1d-9b7d-ab8dfbbd4bed"
    (by decide) (by decide)

/-- C5 counterexample: the shipped-status fallback produces
"TRK-1B9D6BCD" — four fewer characters than the claimed
`TRK-[A-Z0-9]{10}` format. -/
theorem tracking_number_format_cex :
    mkFallbackTracking "1b9d6bcd-bbbd-4b1d-9b7d-ab8dfbbd4bed" = "TRK-1B9D6BCD" ∧
    isTrackingFormat "TRK-1B9D6BCD" = false := by
  constructor
  · decide
  · decide

/-- The tracking value chosen by the HTTP handler at status "enviado":
`trackingNumber || order.trackingNumber || generated`. -/
def shipTracking (rt existing : Option String) (uuid : String) : Option String :=
  jsOrStr rt (jsOrStr existing (some (mkFallbackTracking uuid)))

/-- Reduction of the HTTP update handler at status "enviado". -/
theorem httpUpdateOrderStatus_enviado_eq (st : Store) (id : String)
    (rt : Option String) (uuid : String) :
    httpUpdateOrderStatus st id "enviado" rt uuid =
      match findByPk st id with
      | none => (.error .notFound, st)
      | some order =>
        (.ok { order with status := "enviado", trackingNumber := shipTracking rt order.trackingNumber uuid },
          saveOrder st { order with status := "enviado", trackingNumber := shipTracking rt order.trackingNumber uuid }) :=
  rfl

/-- Reduction of the HTTP update handler at status "cancelado". -/
theorem httpUpdateOrderStatus_cancelado_eq (st : Store) (id : String)
    (rt : Option String) (uuid : String) :
    httpUpdateOrderStatus st id "cancelado" rt uuid =
      match findByPk st id with
      | none => (.error .notFound, st)
      | some order =>
        (.ok { order with status := "cancelado", trackingNumber := none },
          saveOrder st { order with status := "cancelado", trackingNumber := none }) :=
  rfl

/-- C6 (amended): on the HTTP transport the shipped-status tracking
priority is caller-supplied over existing over freshly generated, and a
caller-supplied or existing value is never overwritten by a generated
one; the gRPC `UpdateOrderStatus` never assigns a tracking number at
all, so an order without one stays without one when marked shipped. -/
theorem update_shipped_tracking (st : Store) (id : String) (reqTracking : Option String)
    (uuid : String) (order : Order) (hfind : findByPk st id = some order) :
    (truthy reqTracking = true →
      (httpUpdateOrderStatus st id "enviado" reqTracking uuid).1 =
        .ok { order with status := "enviado", trackingNumber := reqTracking }) ∧
    (truthy reqTracking = false → truthy order.trackingNumber = true →
      (httpUpdateOrderStatus st id "enviado" reqTracking uuid).1 =
        .ok { order with status := "enviado", trackingNumber := order.trackingNumber }) ∧
    (truthy reqTracking = false → truthy order.trackingNumber = false →
      (httpUpdateOrderStatus st id "enviado" reqTracking uuid).1 =
        .ok { order with status := "enviado", trackingNumber := some (mkFallbackTracking uuid) }) ∧
    grpcUpdateOrderStatus st id "enviado" =
      (.ok (), saveOrder st { order with status := "enviado" }) := by
  refine ⟨?_, ?_, ?_, ?_⟩
  · intro h
    rw [httpUpdateOrderStatus_enviado_eq, hfind]
    simp [shipTracking, jsOrStr, h]
  · intro h h2
    rw [httpUpdateOrderStatus_enviado_eq, hfind]
    simp [shipTracking, jsOrStr, h, h2]
  · intro h h2
    rw [httpUpdateOrderStatus_enviado_eq, hfind]
    simp [shipTracking, jsOrStr, h, h2]
  · simp [grpcUpdateOrderStatus, hfind]

/-- C6 witness: over HTTP, shipping an order that already has a
tracking number and supplying none keeps the existing value. -/
theorem update_shipped_tracking_instance :
    (httpUpdateOrderStatus [exOrderPend] "o-pend" "enviado" none "1b9d6bcd").1 =
      .ok { exOrderPend with status := "enviado", trackingNumber := exOrderPend.trackingNumber } :=
  (update_shipped_tracking [exOrderPend] "o-pend" none "1b9d6bcd" exOrderPend rfl).2.1
    rfl rfl

/-- C6 counterexample: over gRPC, shipping an order that has no
tracking number leaves it with none — the claim requires a freshly
generated one in this case. -/
theorem update_shipped_tracking_cex :
    exOrderNoTrk.trackingNumber = none ∧
    grpcUpdateOrderStatus [exOrderNoTrk] "o-notrk" "enviado" =
      (.ok (), [{ exOrderNoTrk with status := "enviado" }]) ∧
    ({ exOrderNoTrk with status := "enviado" } : Order).trackingNumber = none :=
  ⟨rfl, rfl, rfl⟩

/-- Shared fact: the HTTP admin cancellation with a non-blank reason
cancels the resolved order. -/
theorem httpCancelOrder_admin_ok (st : Store) (idt : String) (s : String)
    (order : Order) (hres : resolveOrder st idt = some order)
    (htrim : jsTrim s ≠ "") :
    httpCancelOrder st idt (some "admin") (some s) =
      (.ok { order with status := "cancelado" },
        saveOrder st { order with status := "cancelado" }) := by
  obtain ⟨l⟩ := s
  match l with
  | [] => exact absurd rfl htrim
  | c :: cs =>
    have h1 : truthy (some ⟨c :: cs⟩) = true := rfl
    have h2 : (jsTrim ((some (⟨c :: cs⟩ : String)).getD "") == "") = false := by
      cases hb : jsTrim ((some (⟨c :: cs⟩ : String)).getD "") == ""
      · rfl
      · exact absurd (eq_of_beq hb) htrim
    rw [httpCancelOrder_admin_eq, hres]
    simp [h1, h2, htrim]

/-- C7 (amended): the tracking number is cleared to null only by the
HTTP `updateOrderStatus` with status "cancelado"; the HTTP and gRPC
cancel handlers and the gRPC `UpdateOrderStatus` cancel the order while
leaving its tracking number untouched. -/
theorem cancel_tracking (st : Store) (idt uuid : String) (reason : Option String)
    (order : Order) (hfind : findByPk st idt = some order)
    (hres : resolveOrder st idt = some order) :
    (∃ o : Order, httpUpdateOrderStatus st idt "cancelado" none uuid =
        (.ok o, saveOrder st o) ∧ o.trackingNumber = none) ∧
    (∀ s, reason = some s → jsTrim s ≠ "" →
      httpCancelOrder st idt (some "admin") reason =
        (.ok { order with status := "cancelado" },
          saveOrder st { order with status := "cancelado" }) ∧
      ({ order with status := "cancelado" } : Order).trackingNumber =
        order.trackingNumber) ∧
    grpcCancelOrder st idt (some "user") reason =
      (.ok (), saveOrder st { order with status := "cancelado" }) ∧
    grpcUpdateOrderStatus st idt "cancelado" =
      (.ok (), saveOrder st { order with status := "cancelado" }) := by
  have hrole : truthy (some "user") = true := rfl
  refine ⟨?_, ?_, ?_, ?_⟩
  · rw [httpUpdateOrderStatus_cancelado_eq, hfind]
    exact ⟨_, rfl, rfl⟩
  · intro s hs htrim
    subst hs
    exact ⟨httpCancelOrder_admin_ok st idt s order hres htrim, rfl⟩
  · simp [grpcCancelOrder, hres, hrole]
  · simp [grpcUpdateOrderStatus, hfind]

/-- C7 witness: the HTTP status update to "cancelado" clears the
tracking number of a concrete order, while the HTTP admin cancellation
of the same order keeps it. -/
theorem cancel_tracking_instance :
    (∃ o : Order, httpUpdateOrderStatus [exOrderPend] "o-pend" "cancelado" none "u" =
        (.ok o, saveOrder [exOrderPend] o) ∧ o.trackingNumber = none) ∧
    (httpCancelOrder [exOrderPend] "o-pend" (some "admin") (some "late") =
        (.ok { exOrderPend with status := "cancelado" },
          saveOrder [exOrderPend] { exOrderPend with status := "cancelado" }) ∧
      ({ exOrderPend with status := "cancelado" } : Order).trackingNumber =
        exOrderPend.trackingNumber) := by
  have h := cancel_tracking [exOrderPend] "o-pend" "u" (some "late") exOrderPend rfl rfl
  exact ⟨h.1, h.2.1 "late" rfl (by decide)⟩

/-- C7 counterexample: an HTTP admin cancellation succeeds, yet the
cancelled order keeps its tracking number — the claim requires it
cleared to null whenever an order becomes cancelled. -/
theorem cancel_tracking_cex :
    httpCancelOrder [exOrderPend] "o-pend" (some "admin") (some "fraud") =
      (.ok { exOrderPend with status := "cancelado" },
        [{ exOrderPend with status := "cancelado" }]) ∧
    ({ exOrderPend with status := "cancelado" } : Order).trackingNumber =
      some "TRK-AAAA000000" := by
  constructor
  · rfl
  · rfl

/-- C8 (amended): on the HTTP transport `getOrderHistory` returns all
and only the client's orders sorted by `createdAt` descending (strictly
so when the timestamps are distinct) and an empty list when the client
has none; the gRPC `GetOrderHistory` returns the same set but in store
order, without any sorting. -/
theorem order_history (st : Store) (c : String) :
    (∀ o : Order, o ∈ httpGetOrderHistory st c ↔ o ∈ st ∧ o.clientId = c) ∧
    (httpGetOrderHistory st c).Pairwise createdDesc ∧
    ((clientOrders st c).Pairwise (fun a b => a.createdAt ≠ b.createdAt) →
      (httpGetOrderHistory st c).Pairwise (fun a b => b.createdAt < a.createdAt)) ∧
    ((∀ o ∈ st, o.clientId ≠ c) → httpGetOrderHistory st c = []) ∧
    (∀ o : Order, o ∈ grpcGetOrderHistory st c ↔ o ∈ st ∧ o.clientId = c) := by
  have hperm : List.Perm (httpGetOrderHistory st c) (clientOrders st c) :=
    List.perm_insertionSort createdDesc (clientOrders st c)
  refine ⟨?_, ?_, ?_, ?_, ?_⟩
  · intro o
    rw [hperm.mem_iff, clientOrders, List.mem_filter]
    simp
  · exact List.sorted_insertionSort createdDesc (clientOrders st c)
  · intro hne
    have hne2 : (httpGetOrderHistory st c).Pairwise (fun a b => a.createdAt ≠ b.createdAt) :=
      hne.perm hperm.symm (fun h0 => Ne.symm h0)
    exact ((List.sorted_insertionSort createdDesc (clientOrders st c)).and hne2).imp
      (fun hab => lt_of_le_of_ne hab.1 (Ne.symm hab.2))
  · intro h
    have hf : clientOrders st c = [] := by
      rw [clientOrders, List.filter_eq_nil_iff]
      intro o ho
      simp [h o ho]
    rw [httpGetOrderHistory, hf]
    rfl
  · intro o
    rw [grpcGetOrderHistory, clientOrders, List.mem_filter]
    simp

/-- C8 witness: three orders of one client created at times 10, 20, 30
come back over HTTP strictly newest first, and the history holds all
and only this client's orders. -/
theorem order_history_instance :
    (httpGetOrderHistory exHistSt "cX").Pairwise (fun a b => b.createdAt < a.createdAt) ∧
    (∀ o : Order, o ∈ httpGetOrderHistory exHistSt "cX" ↔ o ∈ exHistSt ∧ o.clientId = "cX") := by
  have h := order_history exHistSt "cX"
  exact ⟨h.2.2.1 (by decide), h.1⟩

/-- C8 counterexample: the gRPC history of the same client comes back
in store order with strictly ascending `createdAt` — not the strictly
descending order the claim requires on both transports. -/
theorem order_history_cex :
    (grpcGetOrderHistory exHistSt "cX").map Order.createdAt = [10, 20, 30] ∧
    ¬(grpcGetOrderHistory exHistSt "cX").Pairwise createdDesc := by
  constructor
  · rfl
  · decide

/-- The gRPC `GetAllOrders` row predicate with an active date range,
spelled out. -/
theorem matchesFilters_range_iff (req : AllOrdersReq) (s e : ℤ) (o : Order) :
    matchesFilters req (some (s, e)) o = true ↔
      (truthy req.id = true → o.id = req.id.getD "") ∧
      (truthy req.userId = true → o.clientId = req.userId.getD "") ∧
      s ≤ o.createdAt ∧ o.createdAt ≤ e := by
  unfold matchesFilters
  cases hid : truthy req.id <;> cases huid : truthy req.userId <;>
    simp [hid, huid, and_assoc]

/-- C9: with both date strings supplied, the gRPC `GetAllOrders`
rejects an unparsable date with INVALID_ARGUMENT and otherwise returns
exactly the rows whose `createdAt` lies inclusively between the parsed
bounds (intersected with the id and clientId filters); the HTTP
`getAllOrders`, however, evaluates the undefined symbol `Op` on this
path, so every HTTP request carrying a date range — valid or not —
fails with the generic internal error instead of the claimed behavior. -/
theorem getAllOrders_dateRange (parseDate : String → Option ℤ) (st : Store)
    (req : AllOrdersReq) (hs : truthy req.startDate = true)
    (he : truthy req.endDate = true) :
    ((parseDate (req.startDate.getD "") = none ∨ parseDate (req.endDate.getD "") = none) →
      grpcGetAllOrders parseDate st req = .error .validationError) ∧
    (∀ s e, parseDate (req.startDate.getD "") = some s →
      parseDate (req.endDate.getD "") = some e →
      ∃ l, grpcGetAllOrders parseDate st req = .ok l ∧
        ∀ o : Order, o ∈ l ↔ o ∈ st ∧
          (truthy req.id = true → o.id = req.id.getD "") ∧
          (truthy req.userId = true → o.clientId = req.userId.getD "") ∧
          s ≤ o.createdAt ∧ o.createdAt ≤ e) ∧
    httpGetAllOrders st req = .error .internalError := by
  refine ⟨?_, ?_, ?_⟩
  · intro h
    rcases h with h | h
    · simp [grpcGetAllOrders, hs, he, h]
    · cases hps : parseDate (req.startDate.getD "") <;>
        simp [grpcGetAllOrders, hs, he, h, hps]
  · intro s e hps hpe
    refine ⟨List.insertionSort createdDesc (st.filter (matchesFilters req (some (s, e)))),
      by simp [grpcGetAllOrders, hs, he, hps, hpe], ?_⟩
    intro o
    have hperm : List.Perm
        (List.insertionSort createdDesc (st.filter (matchesFilters req (some (s, e)))))
        (st.filter (matchesFilters req (some (s, e)))) :=
      List.perm_insertionSort createdDesc _
    rw [hperm.mem_iff, List.mem_filter, matchesFilters_range_iff]
  · simp [httpGetAllOrders, hs, he]

/-- A concrete stand-in for `new Date(...)` parsing: two known ISO
strings parse, everything else is an Invalid Date. -/
def exParse : String → Option ℤ := fun d =>
  if d == "2025-01-01" then some 0
  else if d == "2025-12-31" then some 100
  else none

/-- C9 witness: over gRPC an unparsable start date yields
INVALID_ARGUMENT, a valid range returns exactly the rows with
`createdAt` between the bounds inclusive, and the same date-range
request over HTTP hits the undefined `Op` and fails internally. -/
theorem getAllOrders_dateRange_instance :
    grpcGetAllOrders exParse exHistSt ⟨none, none, some "nonsense", some "2025-12-31"⟩ =
      .error .validationError ∧
    httpGetAllOrders exHistSt ⟨none, none, some "2025-01-01", some "2025-12-31"⟩ =
      .error .internalError ∧
    ∃ l, grpcGetAllOrders exParse exHistSt
        ⟨none, none, some "2025-01-01", some "2025-12-31"⟩ = .ok l ∧
      ∀ o : Order, o ∈ l ↔ o ∈ exHistSt ∧
        (truthy (none : Option String) = true → o.id = (none : Option String).getD "") ∧
        (truthy (none : Option String) = true → o.clientId = (none : Option String).getD "") ∧
        (0 : ℤ) ≤ o.createdAt ∧ o.createdAt ≤ (100 : ℤ) := by
  refine ⟨?_, ?_, ?_⟩
  · exact (getAllOrders_dateRange exParse exHistSt
      ⟨none, none, some "nonsense", some "2025-12-31"⟩ rfl rfl).1 (Or.inl rfl)
  · exact (getAllOrders_dateRange exParse exHistSt
      ⟨none, none, some "2025-01-01", some "2025-12-31"⟩ rfl rfl).2.2
  · exact (getAllOrders_dateRange exParse exHistSt
      ⟨none, none, some "2025-01-01", some "2025-12-31"⟩ rfl rfl).2.1 0 100 rfl rfl

end Censudex
